import Mathlib

/-!
Verification of the tidepool marine-data aggregation layer.

The JavaScript sources (src/apis/fishbase.js, src/apis/obis.js,
src/apis/ocean-weather.js, src/server.js) are shallowly embedded below.
JSON values are modelled by the inductive type JVal.  JavaScript numbers
are modelled as exact decimal fixed-point values m / 10 ^ e (every numeric
literal appearing in the program is a decimal fraction, so this
representation is exact, and all arithmetic the program performs on them
is exact in it).  The outcome of one outbound HTTP request is modelled by
HttpResult: either the request throws (network failure, timeout, non-2xx
status, all of which axios surfaces as a thrown error) or it resolves and
yields a response body.  A thrown TypeError inside a try block (for
example calling .map on a non-array) is modelled with Except.
-/

set_option linter.unusedVariables false

namespace Tidepool

/-- Exact decimal number m / 10 ^ e, the model of a JavaScript number.
Every numeric literal of the repository is a finite decimal, so the
representation is exact. -/
structure Dec where
  m : Int
  e : Nat
deriving DecidableEq, Repr

/-- Negation of a decimal number. -/
def Dec.neg (d : Dec) : Dec := ⟨-d.m, d.e⟩

/-- Value-level strict order on decimals against an integer constant,
by cross multiplication: m / 10 ^ e < c. -/
def Dec.ltInt (d : Dec) (c : Int) : Bool := decide (d.m < c * (10 : Int) ^ d.e)

/-- Value-level order between two decimals: a ≤ b. -/
def Dec.le (a b : Dec) : Bool :=
  decide (a.m * (10 : Int) ^ b.e ≤ b.m * (10 : Int) ^ a.e)

/-- Whether the decimal denotes the number zero (the only falsy number
the model can produce; NaN is modelled separately by Option). -/
def Dec.isZero (d : Dec) : Bool := d.m == 0

/-- JSON-ish runtime value: the model of what the JavaScript code passes
around (undefined, null, booleans, numbers, strings, arrays, objects). -/
inductive JVal where
  | undefined
  | jnull
  | jbool (b : Bool)
  | jnum (d : Dec)
  | jstr (s : String)
  | jarr (elems : List JVal)
  | jobj (fields : List (String × JVal))

/-- Outcome of one outbound HTTP GET performed with axios: either the
call throws (network failure, timeout, non-2xx response) or it resolves
and `response.data` is the given value (JVal.undefined models an absent
body). -/
inductive HttpResult where
  | fail
  | ok (data : JVal)

/-- JavaScript truthiness: undefined, null, false, 0 and the empty string
are falsy, every other value (including any array or object) is truthy. -/
def truthy : JVal → Bool
  | .undefined => false
  | .jnull => false
  | .jbool b => b
  | .jnum d => !d.isZero
  | .jstr s => !s.isEmpty
  | .jarr _ => true
  | .jobj _ => true

/-- JavaScript `a || b`: a when a is truthy, b otherwise. -/
def jsOr (a b : JVal) : JVal := if truthy a then a else b

/-- Property read `v.k` on a value known not to be null or undefined:
objects yield the field or undefined, primitives yield undefined. -/
def getF : JVal → String → JVal
  | .jobj fs, k => (List.lookup k fs).getD .undefined
  | _, _ => .undefined

/-- Element read `v?.[0]`: the first element of an array, undefined
otherwise (in particular when v is null or undefined, matching the
optional-chaining use sites). -/
def idx0 : JVal → JVal
  | .jarr (x :: _) => x
  | _ => .undefined

/-- The test `v.length === 0` on a truthy value v: true for empty arrays
and empty strings; for values without a length property the comparison
`undefined === 0` is false. -/
def lenEqZero : JVal → Bool
  | .jarr xs => xs.isEmpty
  | .jstr s => s.isEmpty
  | _ => false

/-- Array.prototype.map over a fallible element function, as it behaves
inside a try block: applied to a non-array the method access throws;
the first element on which f throws aborts the whole map. -/
def mapFallible (f : JVal → Except Unit JVal) : JVal → Except Unit (List JVal)
  | .jarr xs => goList f xs
  | _ => .error ()
where
  goList (f : JVal → Except Unit JVal) : List JVal → Except Unit (List JVal)
    | [] => .ok []
    | x :: xs =>
        match f x with
        | .error e => .error e
        | .ok y =>
            match goList f xs with
            | .error e => .error e
            | .ok ys => .ok (y :: ys)

/-- Numeric value of a list of decimal digit characters. -/
def digitsVal (cs : List Char) : Nat :=
  cs.foldl (fun a c => a * 10 + (c.toNat - 48)) 0

/-- Unsigned decimal body accepted by parseFloat: digits, optionally
followed by a dot and more digits, read as a prefix of the input and
requiring at least one digit.  Exponents and the Infinity forms are
outside the fragment the repository can receive. -/
def parseDecCore (cs : List Char) : Option Dec :=
  let ip := cs.takeWhile Char.isDigit
  let r1 := cs.dropWhile Char.isDigit
  match r1 with
  | '.' :: r2 =>
      let fp := r2.takeWhile Char.isDigit
      if ip.isEmpty && fp.isEmpty then none
      else some ⟨(digitsVal ip * 10 ^ fp.length + digitsVal fp : Nat), fp.length⟩
  | _ => if ip.isEmpty then none else some ⟨(digitsVal ip : Nat), 0⟩

/-- The global parseFloat applied to a string: skip leading spaces, read
an optional sign and a decimal prefix; none models NaN. -/
def parseFloatStr (s : String) : Option Dec :=
  match s.data.dropWhile (fun c => c = ' ') with
  | '-' :: rest => (parseDecCore rest).map Dec.neg
  | '+' :: rest => parseDecCore rest
  | cs => parseDecCore cs

/-- parseFloat applied to an arbitrary value as the adapters do: numbers
pass through, strings are parsed, every other value gives NaN (none). -/
def parseFloatJ : JVal → Option Dec
  | .jnum d => some d
  | .jstr s => parseFloatStr s
  | _ => none

/-- ToNumber coercion used by the relational operators: numbers pass
through, booleans and null become 0 or 1, a blank string is 0, other
strings must parse fully; undefined (and the composite values, which the
program never compares) give NaN. -/
def toNumber : JVal → Option Dec
  | .jnum d => some d
  | .jbool b => some ⟨if b then 1 else 0, 0⟩
  | .jnull => some ⟨0, 0⟩
  | .jstr s =>
      if s.trim.isEmpty then some ⟨0, 0⟩
      else parseFloatStr s.trim
  | _ => none

/-- The comparison `v < c` against an integer constant, via ToNumber;
a NaN operand makes the comparison false. -/
def jsLtInt (v : JVal) (c : Int) : Bool :=
  match toNumber v with
  | some d => d.ltInt c
  | none => false

/-- Character of one decimal digit. -/
def digitChar (n : Nat) : Char := Char.ofNat (48 + n % 10)

/-- Decimal digits of a natural number, most significant first; the fuel
argument makes the recursion structural. -/
def natDigitsAux : Nat → Nat → List Char
  | 0, _ => []
  | fuel + 1, n =>
      if n < 10 then [digitChar n]
      else natDigitsAux fuel (n / 10) ++ [digitChar (n % 10)]

/-- Decimal digit string of a natural number. -/
def natDigits (n : Nat) : List Char := natDigitsAux (n + 1) n

/-- Left-pad a digit list with zeros to width k. -/
def padZeros (k : Nat) (l : List Char) : List Char :=
  List.replicate (k - l.length) '0' ++ l

/-- Number.prototype.toFixed on a nonnegative decimal mn / 10 ^ e with k
requested fraction digits: round half away from zero to k digits and
print with exactly k digits after the dot. -/
def toFixedCore (k : Nat) (mn : Nat) (e : Nat) : List Char :=
  let r := (2 * mn * 10 ^ k + 10 ^ e) / (2 * 10 ^ e)
  if k = 0 then natDigits r
  else natDigits (r / 10 ^ k) ++ '.' :: padZeros k (natDigits (r % 10 ^ k))

/-- Number.prototype.toFixed: a negative number is printed as the minus
sign followed by the rendering of its absolute value. -/
def toFixedL (k : Nat) (d : Dec) : List Char :=
  if d.m < 0 then '-' :: toFixedCore k (-d.m).toNat d.e
  else toFixedCore k d.m.toNat d.e

/-- String form of toFixed. -/
def toFixed (k : Nat) (d : Dec) : String := String.mk (toFixedL k d)

/-- `parseFloat(x).toFixed(k)`: a NaN prints as the string NaN. -/
def toFixedJ (k : Nat) : Option Dec → String
  | some d => toFixed k d
  | none => "NaN"

/-! ### src/apis/fishbase.js -/

/-- Mapping of one upstream FishBase record inside
`response.data.map(fish => ...)` (fishbase.js lines 31-40): member access
on a null or undefined element throws, otherwise the canonical FishRecord
is built with falsy-coalescing defaults. -/
def fishFromUpstream (fish : JVal) : Except Unit JVal :=
  match fish with
  | .undefined => .error ()
  | .jnull => .error ()
  | _ => .ok (.jobj [
      ("id", jsOr (getF fish "SpecCode") (getF fish "id")),
      ("name", jsOr (getF fish "Species")
                 (jsOr (getF fish "name") (.jstr "Unknown Species"))),
      ("genus", jsOr (getF fish "Genus") (.jstr "Unknown")),
      ("family", jsOr (getF fish "Family") (.jstr "Unknown")),
      ("freshwater", jsOr (getF fish "Freshwater") (.jnum ⟨0, 0⟩)),
      ("marine", jsOr (getF fish "Marine") (.jnum ⟨1, 0⟩)),
      ("brackish", jsOr (getF fish "Brackish") (.jnum ⟨0, 0⟩)),
      ("icon", .jstr "🐟")])

/-- getDefaultFishData (fishbase.js lines 81-134): the static fallback
list of five fish records. -/
def getDefaultFishData : JVal :=
  .jarr [
    .jobj [("id", .jnum ⟨1, 0⟩), ("name", .jstr "Tuna"),
           ("genus", .jstr "Thunnus"), ("family", .jstr "Scombridae"),
           ("marine", .jnum ⟨1, 0⟩), ("freshwater", .jnum ⟨0, 0⟩),
           ("brackish", .jnum ⟨0, 0⟩), ("icon", .jstr "🐟")],
    .jobj [("id", .jnum ⟨2, 0⟩), ("name", .jstr "Salmon"),
           ("genus", .jstr "Salmo"), ("family", .jstr "Salmonidae"),
           ("marine", .jnum ⟨1, 0⟩), ("freshwater", .jnum ⟨1, 0⟩),
           ("brackish", .jnum ⟨1, 0⟩), ("icon", .jstr "🐟")],
    .jobj [("id", .jnum ⟨3, 0⟩), ("name", .jstr "Cod"),
           ("genus", .jstr "Gadus"), ("family", .jstr "Gadidae"),
           ("marine", .jnum ⟨1, 0⟩), ("freshwater", .jnum ⟨0, 0⟩),
           ("brackish", .jnum ⟨0, 0⟩), ("icon", .jstr "🐟")],
    .jobj [("id", .jnum ⟨4, 0⟩), ("name", .jstr "Anchovy"),
           ("genus", .jstr "Engraulis"), ("family", .jstr "Engraulidae"),
           ("marine", .jnum ⟨1, 0⟩), ("freshwater", .jnum ⟨0, 0⟩),
           ("brackish", .jnum ⟨0, 0⟩), ("icon", .jstr "🐟")],
    .jobj [("id", .jnum ⟨5, 0⟩), ("name", .jstr "Herring"),
           ("genus", .jstr "Clupea"), ("family", .jstr "Clupeidae"),
           ("marine", .jnum ⟨1, 0⟩), ("freshwater", .jnum ⟨0, 0⟩),
           ("brackish", .jnum ⟨0, 0⟩), ("icon", .jstr "🐟")]]

/-- getFishSpecies (fishbase.js lines 16-45).  The limit query parameter
only shapes the outbound request, which is abstracted by the HttpResult
argument; a thrown request, a falsy body or an empty body yield the
fallback list, otherwise the element-wise mapping runs, any TypeError it
throws being caught by the same catch. -/
def getFishSpecies (up : HttpResult) : JVal :=
  match up with
  | .fail => getDefaultFishData
  | .ok data =>
      if !truthy data || lenEqZero data then getDefaultFishData
      else
        match mapFallible fishFromUpstream data with
        | .ok fishes => .jarr fishes
        | .error _ => getDefaultFishData

/-- Mapping of one upstream record inside getFishByFamily
(fishbase.js lines 66-71): note the requested family is echoed verbatim
and the name has no literal default. -/
def familyFishFromUpstream (family : String) (fish : JVal) : Except Unit JVal :=
  match fish with
  | .undefined => .error ()
  | .jnull => .error ()
  | _ => .ok (.jobj [
      ("id", jsOr (getF fish "SpecCode") (getF fish "id")),
      ("name", jsOr (getF fish "Species") (getF fish "name")),
      ("family", .jstr family),
      ("icon", .jstr "🐟")])

/-- getFishByFamily (fishbase.js lines 52-76): on a thrown request, a
falsy body, an empty body or a mapping TypeError the function returns the
empty array, not a fallback dataset. -/
def getFishByFamily (family : String) (up : HttpResult) : JVal :=
  match up with
  | .fail => .jarr []
  | .ok data =>
      if !truthy data || lenEqZero data then .jarr []
      else
        match mapFallible (familyFishFromUpstream family) data with
        | .ok fishes => .jarr fishes
        | .error _ => .jarr []

/-! ### src/apis/obis.js -/

/-- Mapping of one upstream OBIS occurrence inside
`response.data.results.map(obs => ...)` (obis.js): the coordinates are
passed through unchanged. -/
def obsFromUpstream (obs : JVal) : Except Unit JVal :=
  match obs with
  | .undefined => .error ()
  | .jnull => .error ()
  | _ => .ok (.jobj [
      ("id", getF obs "id"),
      ("species", jsOr (getF obs "scientificName")
                    (jsOr (getF obs "species") (.jstr "Unknown"))),
      ("commonName", jsOr (getF obs "commonName") (.jstr "")),
      ("latitude", getF obs "decimalLatitude"),
      ("longitude", getF obs "decimalLongitude"),
      ("date", getF obs "eventDate"),
      ("datasetName", jsOr (getF obs "datasetName") (.jstr "OBIS")),
      ("icon", .jstr "🌊")])

/-- getDefaultBiodiversityData: the static fallback payload with five
observations. -/
def getDefaultBiodiversityData : JVal :=
  .jobj [
    ("total", .jnum ⟨5, 0⟩),
    ("observations", .jarr [
      .jobj [("id", .jnum ⟨1, 0⟩),
             ("species", .jstr "Balaenoptera musculus (Blue Whale)"),
             ("commonName", .jstr "Blue Whale"),
             ("latitude", .jnum ⟨375, 1⟩), ("longitude", .jnum ⟨-1224, 1⟩),
             ("date", .jstr "2024-02-01"),
             ("datasetName", .jstr "Marine Mammal Observations"),
             ("icon", .jstr "🐋")],
      .jobj [("id", .jnum ⟨2, 0⟩),
             ("species", .jstr "Megaptera novaeangliae (Humpback Whale)"),
             ("commonName", .jstr "Humpback Whale"),
             ("latitude", .jnum ⟨378, 1⟩), ("longitude", .jnum ⟨-1231, 1⟩),
             ("date", .jstr "2024-02-05"),
             ("datasetName", .jstr "Whale Migration Tracking"),
             ("icon", .jstr "🐋")],
      .jobj [("id", .jnum ⟨3, 0⟩),
             ("species", .jstr "Chelonia mydas (Green Sea Turtle)"),
             ("commonName", .jstr "Green Sea Turtle"),
             ("latitude", .jnum ⟨255, 1⟩), ("longitude", .jnum ⟨-802, 1⟩),
             ("date", .jstr "2024-02-08"),
             ("datasetName", .jstr "Sea Turtle Database"),
             ("icon", .jstr "🐢")],
      .jobj [("id", .jnum ⟨4, 0⟩),
             ("species", .jstr "Echinorhinus brucus (Bramble Shark)"),
             ("commonName", .jstr "Bramble Shark"),
             ("latitude", .jnum ⟨452, 1⟩), ("longitude", .jnum ⟨-1245, 1⟩),
             ("date", .jstr "2024-02-10"),
             ("datasetName", .jstr "Deep Sea Research"),
             ("icon", .jstr "🦈")],
      .jobj [("id", .jnum ⟨5, 0⟩),
             ("species", .jstr "Strongylocentrotus purpuratus (Purple Sea Urchin)"),
             ("commonName", .jstr "Purple Sea Urchin"),
             ("latitude", .jnum ⟨341, 1⟩), ("longitude", .jnum ⟨-1193, 1⟩),
             ("date", .jstr "2024-02-12"),
             ("datasetName", .jstr "Kelp Forest Survey"),
             ("icon", .jstr "🔵")]]),
    ("source", .jstr "OBIS API (Fallback)")]

/-- getBiodiversityObservations (obis.js): the limit and offset options
only shape the outbound request, abstracted by the HttpResult argument.
A thrown request, a falsy body, a falsy results field or a mapping
TypeError yield the fallback payload. -/
def getBiodiversityObservations (up : HttpResult) : JVal :=
  match up with
  | .fail => getDefaultBiodiversityData
  | .ok data =>
      if !truthy data || !truthy (getF data "results") then
        getDefaultBiodiversityData
      else
        match mapFallible obsFromUpstream (getF data "results") with
        | .ok observations => .jobj [
            ("total", jsOr (getF data "total")
                        (.jnum ⟨(observations.length : Int), 0⟩)),
            ("observations", .jarr observations),
            ("source", .jstr "OBIS API")]
        | .error _ => getDefaultBiodiversityData

/-- getDefaultSpeciesStats: the static statistics fallback. -/
def getDefaultSpeciesStats : JVal :=
  .jobj [
    ("totalSpecies", .jnum ⟨234567, 0⟩),
    ("totalObservations", .jnum ⟨123456789, 0⟩),
    ("totalDatasets", .jnum ⟨3251, 0⟩),
    ("icon", .jstr "📊")]

/-- getSpeciesStats (obis.js): a thrown request or a falsy body yield the
fallback; otherwise each field falls back individually through the falsy
coalescing defaults. -/
def getSpeciesStats (up : HttpResult) : JVal :=
  match up with
  | .fail => getDefaultSpeciesStats
  | .ok data =>
      if !truthy data then getDefaultSpeciesStats
      else .jobj [
        ("totalSpecies", jsOr (getF data "species") (.jnum ⟨200000, 0⟩)),
        ("totalObservations",
          jsOr (getF data "observations") (.jnum ⟨100000000, 0⟩)),
        ("totalDatasets", jsOr (getF data "datasets") (.jnum ⟨3000, 0⟩)),
        ("icon", .jstr "📊")]

/-- Mapping of one upstream occurrence inside getObservationsByArea
(obis.js lines 243-247): the three fields pass the upstream values
through without any numeric formatting. -/
def areaObsFromUpstream (obs : JVal) : Except Unit JVal :=
  match obs with
  | .undefined => .error ()
  | .jnull => .error ()
  | _ => .ok (.jobj [
      ("species", jsOr (getF obs "scientificName") (.jstr "Unknown")),
      ("lat", getF obs "decimalLatitude"),
      ("lon", getF obs "decimalLongitude")])

/-- getObservationsByArea (obis.js lines 229-252): the bounding-box
arguments only shape the request geometry, abstracted by the HttpResult
argument; every failure path returns the empty array, not a fallback
dataset. -/
def getObservationsByArea (up : HttpResult) : JVal :=
  match up with
  | .fail => .jarr []
  | .ok data =>
      if !truthy data || !truthy (getF data "results") then .jarr []
      else
        match mapFallible areaObsFromUpstream (getF data "results") with
        | .ok xs => .jarr xs
        | .error _ => .jarr []

/-! ### src/apis/ocean-weather.js -/

/-- getWaveCondition (ocean-weather.js lines 172-180): thresholds on the
raw latest wave height, compared with JavaScript relational coercion. -/
def getWaveCondition (height : JVal) : String :=
  if jsLtInt height 1 then "Calm"
  else if jsLtInt height 2 then "Slight"
  else if jsLtInt height 3 then "Light"
  else if jsLtInt height 4 then "Moderate"
  else if jsLtInt height 6 then "Rough"
  else if jsLtInt height 10 then "Very Rough"
  else "Phenomenal"

/-- getTemperatureCondition (ocean-weather.js lines 185-192). -/
def getTemperatureCondition (temp : JVal) : String :=
  if jsLtInt temp 5 then "Very Cold"
  else if jsLtInt temp 10 then "Cold"
  else if jsLtInt temp 15 then "Cool"
  else if jsLtInt temp 20 then "Mild"
  else if jsLtInt temp 25 then "Warm"
  else "Very Warm"

/-- The region table of getLocationName (ocean-weather.js lines 199-205):
name, minLat, maxLat, minLon, maxLon. -/
def oceanRegions : List (String × Dec × Dec × Dec × Dec) :=
  [("North Pacific", ⟨30, 0⟩, ⟨60, 0⟩, ⟨120, 0⟩, ⟨-100, 0⟩),
   ("South Pacific", ⟨-60, 0⟩, ⟨-10, 0⟩, ⟨100, 0⟩, ⟨180, 0⟩),
   ("Atlantic Ocean", ⟨-60, 0⟩, ⟨60, 0⟩, ⟨-100, 0⟩, ⟨0, 0⟩),
   ("Indian Ocean", ⟨-60, 0⟩, ⟨30, 0⟩, ⟨20, 0⟩, ⟨120, 0⟩),
   ("Arctic Ocean", ⟨60, 0⟩, ⟨90, 0⟩, ⟨-180, 0⟩, ⟨180, 0⟩)]

/-- The for-loop of getLocationName: first region whose bounds contain
the coordinates. -/
def findRegion (lat lon : Dec) : List (String × Dec × Dec × Dec × Dec) → Option String
  | [] => none
  | (name, minLat, maxLat, minLon, maxLon) :: rest =>
      if Dec.le minLat lat && Dec.le lat maxLat
          && Dec.le minLon lon && Dec.le lon maxLon then some name
      else findRegion lat lon rest

/-- getLocationName (ocean-weather.js lines 197-214): the matching region
name, or the coordinates formatted to one decimal with degree signs. -/
def getLocationName (lat lon : Dec) : String :=
  match findRegion lat lon oceanRegions with
  | some name => name
  | none => toFixed 1 lat ++ "°, " ++ toFixed 1 lon ++ "°"

/-- getDefaultOceanWeather (ocean-weather.js lines 219-251): the static
weather fallback, parameterized by the requested coordinates. -/
def getDefaultOceanWeather (latitude longitude : Dec) : JVal :=
  .jobj [
    ("location", .jobj [
      ("latitude", .jnum latitude),
      ("longitude", .jnum longitude),
      ("name", .jstr (getLocationName latitude longitude))]),
    ("current", .jobj [
      ("waveHeight", .jstr "1.5"),
      ("waveHeightUnit", .jstr "meters"),
      ("wavePeriod", .jstr "8.2"),
      ("wavePeriodUnit", .jstr "seconds"),
      ("windWaveHeight", .jstr "0.9"),
      ("condition", .jstr "Light")]),
    ("daily", .jobj [
      ("maxTemp", .jstr "15.2"),
      ("minTemp", .jstr "12.8"),
      ("tempUnit", .jstr "°C")]),
    ("forecast", .jarr [
      .jobj [("day", .jnum ⟨0, 0⟩), ("waveHeight", .jstr "1.5")],
      .jobj [("day", .jnum ⟨1, 0⟩), ("waveHeight", .jstr "1.8")],
      .jobj [("day", .jnum ⟨2, 0⟩), ("waveHeight", .jstr "2.1")],
      .jobj [("day", .jnum ⟨3, 0⟩), ("waveHeight", .jstr "1.9")],
      .jobj [("day", .jnum ⟨4, 0⟩), ("waveHeight", .jstr "1.6")],
      .jobj [("day", .jnum ⟨5, 0⟩), ("waveHeight", .jstr "1.4")],
      .jobj [("day", .jnum ⟨6, 0⟩), ("waveHeight", .jstr "1.7")]]),
    ("source", .jstr "Open-Meteo Marine API (Fallback)"),
    ("icon", .jstr "🌊")]

/-- The forecast expression of getOceanWeather (lines 70-75): when
wave_height_max is falsy the forecast is the empty array; when it is a
truthy array the first seven entries are formatted; a truthy non-array
would make slice or map throw inside the try block. -/
def forecastOf (whm : JVal) : Except Unit (List JVal) :=
  if truthy whm then
    match whm with
    | .jarr xs => .ok ((xs.take 7).enum.map (fun p =>
        .jobj [("day", .jnum ⟨(p.1 : Int), 0⟩),
               ("waveHeight", .jstr (toFixedJ 2 (parseFloatJ p.2)))]))
    | _ => .error ()
  else .ok []

/-- The body of getOceanWeather's try block after the falsy-body check
(ocean-weather.js lines 35-78). -/
def getOceanWeatherLive (latitude longitude : Dec) (data : JVal) : Except Unit JVal :=
  let hourly := jsOr (getF data "hourly") (.jobj [])
  let daily := jsOr (getF data "daily") (.jobj [])
  let latestWaveHeight := jsOr (idx0 (getF hourly "wave_height")) (.jnum ⟨0, 0⟩)
  let latestWavePeriod := jsOr (idx0 (getF hourly "wave_period")) (.jnum ⟨0, 0⟩)
  let latestWindWaveHeight :=
    jsOr (idx0 (getF hourly "wind_wave_height")) (.jnum ⟨0, 0⟩)
  let maxTemp := jsOr (idx0 (getF daily "temperature_2m_max")) (.jstr "N/A")
  let minTemp := jsOr (idx0 (getF daily "temperature_2m_min")) (.jstr "N/A")
  match forecastOf (getF daily "wave_height_max") with
  | .error e => .error e
  | .ok forecast => .ok (.jobj [
    ("location", .jobj [
      ("latitude", .jnum latitude),
      ("longitude", .jnum longitude),
      ("name", .jstr (getLocationName latitude longitude))]),
    ("current", .jobj [
      ("waveHeight", .jstr (toFixedJ 2 (parseFloatJ latestWaveHeight))),
      ("waveHeightUnit", .jstr "meters"),
      ("wavePeriod", .jstr (toFixedJ 2 (parseFloatJ latestWavePeriod))),
      ("wavePeriodUnit", .jstr "seconds"),
      ("windWaveHeight", .jstr (toFixedJ 2 (parseFloatJ latestWindWaveHeight))),
      ("condition", .jstr (getWaveCondition latestWaveHeight))]),
    ("daily", .jobj [
      ("maxTemp", match maxTemp with
        | .jnum d => .jstr (toFixed 1 d)
        | v => v),
      ("minTemp", match minTemp with
        | .jnum d => .jstr (toFixed 1 d)
        | v => v),
      ("tempUnit", .jstr "°C")]),
    ("forecast", .jarr forecast),
    ("source", .jstr "Open-Meteo Marine API"),
    ("icon", .jstr "🌊")])

/-- getOceanWeather (ocean-weather.js lines 17-83): a thrown request or a
falsy body yield the coordinate-parameterized fallback, as does any
TypeError thrown in the try block. -/
def getOceanWeather (latitude longitude : Dec) (up : HttpResult) : JVal :=
  match up with
  | .fail => getDefaultOceanWeather latitude longitude
  | .ok data =>
      if !truthy data then getDefaultOceanWeather latitude longitude
      else
        match getOceanWeatherLive latitude longitude data with
        | .ok v => v
        | .error _ => getDefaultOceanWeather latitude longitude

/-- getDefaultTemperatureData (ocean-weather.js lines 256-277). -/
def getDefaultTemperatureData (latitude longitude : Dec) : JVal :=
  .jobj [
    ("location", .jobj [
      ("latitude", .jnum latitude),
      ("longitude", .jnum longitude),
      ("name", .jstr (getLocationName latitude longitude))]),
    ("current", .jobj [
      ("temperature", .jstr "13.5"),
      ("unit", .jstr "°C"),
      ("humidity", .jstr "72"),
      ("condition", .jstr "Cool")]),
    ("daily", .jobj [
      ("maxTemp", .jstr "15.2"),
      ("minTemp", .jstr "12.8"),
      ("precipitation", .jnum ⟨0, 0⟩)]),
    ("source", .jstr "Open-Meteo Weather API (Fallback)"),
    ("icon", .jstr "🌡️")]

/-- getWaterTemperature (ocean-weather.js lines 91-138): the live path
performs no operation that can throw, so only a thrown request or a
falsy body reach the fallback. -/
def getWaterTemperature (latitude longitude : Dec) (up : HttpResult) : JVal :=
  match up with
  | .fail => getDefaultTemperatureData latitude longitude
  | .ok data =>
      if !truthy data then getDefaultTemperatureData latitude longitude
      else
        let current := jsOr (getF data "current") (.jobj [])
        let daily := jsOr (getF data "daily") (.jobj [])
        .jobj [
          ("location", .jobj [
            ("latitude", .jnum latitude),
            ("longitude", .jnum longitude),
            ("name", .jstr (getLocationName latitude longitude))]),
          ("current", .jobj [
            ("temperature", jsOr (getF current "temperature_2m") (.jstr "N/A")),
            ("unit", .jstr "°C"),
            ("humidity",
              jsOr (getF current "relative_humidity_2m") (.jstr "N/A")),
            ("condition",
              .jstr (getTemperatureCondition (getF current "temperature_2m")))]),
          ("daily", .jobj [
            ("maxTemp",
              jsOr (idx0 (getF daily "temperature_2m_max")) (.jstr "N/A")),
            ("minTemp",
              jsOr (idx0 (getF daily "temperature_2m_min")) (.jstr "N/A")),
            ("precipitation",
              jsOr (idx0 (getF daily "precipitation_sum")) (.jnum ⟨0, 0⟩))]),
          ("source", .jstr "Open-Meteo Weather API"),
          ("icon", .jstr "🌡️")]

/-- The per-location spread `{ name: loc.name, ...weather }` inside
getOceanDataMultipleLocations: the weather value is always an object
without a name field, so the spread prepends the name. -/
def withName (n : String) : JVal → JVal
  | .jobj fs => .jobj (("name", .jstr n) :: fs)
  | _ => .jobj [("name", .jstr n)]

/-- getOceanDataMultipleLocations (ocean-weather.js lines 144-167): one
getOceanWeather call per fixed location (San Francisco Bay 37.5, -122.4;
Great Barrier Reef -16.2, 145.8; Atlantic Mid-Atlantic Ridge 42.0, -30.0),
joined with Promise.all.  The surrounding catch that would return
getDefaultMultiLocationData is unreachable, because getOceanWeather
absorbs every failure of its own request. -/
def getOceanDataMultipleLocations (u1 u2 u3 : HttpResult) : JVal :=
  .jarr [
    withName "San Francisco Bay" (getOceanWeather ⟨375, 1⟩ ⟨-1224, 1⟩ u1),
    withName "Great Barrier Reef" (getOceanWeather ⟨-162, 1⟩ ⟨1458, 1⟩ u2),
    withName "Atlantic Mid-Atlantic Ridge"
      (getOceanWeather ⟨420, 1⟩ ⟨-300, 1⟩ u3)]

/-- getDefaultMultiLocationData (ocean-weather.js lines 282-324): the
static multi-location fallback; its entries carry only name, location,
current and icon. -/
def getDefaultMultiLocationData : JVal :=
  .jarr [
    .jobj [
      ("name", .jstr "San Francisco Bay"),
      ("location", .jobj [
        ("latitude", .jnum ⟨375, 1⟩), ("longitude", .jnum ⟨-1224, 1⟩),
        ("name", .jstr "San Francisco Bay")]),
      ("current", .jobj [
        ("waveHeight", .jstr "1.5"),
        ("waveHeightUnit", .jstr "meters"),
        ("wavePeriod", .jstr "8.2"),
        ("wavePeriodUnit", .jstr "seconds"),
        ("windWaveHeight", .jstr "0.9"),
        ("condition", .jstr "Light")]),
      ("icon", .jstr "🌊")],
    .jobj [
      ("name", .jstr "Great Barrier Reef"),
      ("location", .jobj [
        ("latitude", .jnum ⟨-162, 1⟩), ("longitude", .jnum ⟨1458, 1⟩),
        ("name", .jstr "Great Barrier Reef")]),
      ("current", .jobj [
        ("waveHeight", .jstr "1.2"),
        ("waveHeightUnit", .jstr "meters"),
        ("wavePeriod", .jstr "7.5"),
        ("wavePeriodUnit", .jstr "seconds"),
        ("windWaveHeight", .jstr "0.6"),
        ("condition", .jstr "Calm")]),
      ("icon", .jstr "🌊")],
    .jobj [
      ("name", .jstr "Atlantic Mid-Atlantic Ridge"),
      ("location", .jobj [
        ("latitude", .jnum ⟨420, 1⟩), ("longitude", .jnum ⟨-300, 1⟩),
        ("name", .jstr "Atlantic Mid-Atlantic Ridge")]),
      ("current", .jobj [
        ("waveHeight", .jstr "2.3"),
        ("waveHeightUnit", .jstr "meters"),
        ("wavePeriod", .jstr "9.8"),
        ("wavePeriodUnit", .jstr "seconds"),
        ("windWaveHeight", .jstr "1.4"),
        ("condition", .jstr "Moderate")]),
      ("icon", .jstr "🌊")]]

/-! ### src/server.js -/

/-- The coercion `parseFloat(q) || default` used by the coordinate
routes: NaN and 0 are falsy, any other parsed number passes through. -/
def jsOrNum (v : Option Dec) (d : Dec) : Dec :=
  match v with
  | some x => if x.isZero then d else x
  | none => d

/-- The GET /api/ocean-weather handler (server.js lines 125-142): lat and
lon query parameters (absent modelled by none) are coerced with
`parseFloat(...) || 37.5` and `parseFloat(...) || -122.4`; the adapter
never throws, so the handler always answers 200 with a success envelope.
The timestamp is passed in, standing for new Date().toISOString(). -/
def oceanWeatherRoute (latQ lonQ : Option String) (up : HttpResult)
    (now : String) : Nat × JVal :=
  let lat := jsOrNum (latQ.bind parseFloatStr) ⟨375, 1⟩
  let lon := jsOrNum (lonQ.bind parseFloatStr) ⟨-1224, 1⟩
  (200, .jobj [
    ("success", .jbool true),
    ("data", getOceanWeather lat lon up),
    ("timestamp", .jstr now)])

/-- The GET /api/dashboard handler (server.js lines 190-217): a
Promise.all over the four adapter calls; the adapters are total, so the
join always resolves and the handler always answers 200 with a success
envelope assembling the four sections. -/
def dashboardRoute (fishUp bioUp statsUp wu1 wu2 wu3 : HttpResult)
    (now : String) : Nat × JVal :=
  (200, .jobj [
    ("success", .jbool true),
    ("data", .jobj [
      ("fishSpecies", getFishSpecies fishUp),
      ("biodiversity", getBiodiversityObservations bioUp),
      ("oceanWeather", getOceanDataMultipleLocations wu1 wu2 wu3),
      ("stats", getSpeciesStats statsUp)]),
    ("sources", .jarr [.jstr "FishBase API", .jstr "OBIS API",
      .jstr "Open-Meteo Marine API"]),
    ("timestamp", .jstr now)])

/-! ### Observation helpers for the statements -/

/-- Top-level field names of an object payload (the payload's shape). -/
def fieldNames : JVal → List String
  | .jobj fs => fs.map Prod.fst
  | _ => []

/-- Field names of every entry of an array payload. -/
def entryFieldNames : JVal → List (List String)
  | .jarr xs => xs.map fieldNames
  | _ => []

/-- Whether an object payload carries the given field. -/
def hasField (v : JVal) (k : String) : Bool :=
  match v with
  | .jobj fs => (List.lookup k fs).isSome
  | _ => false

/-- Length of an array payload. -/
def arrLen : JVal → Nat
  | .jarr xs => xs.length
  | _ => 0

/-- Entry of an array payload. -/
def arrGet (v : JVal) (i : Nat) : JVal :=
  match v with
  | .jarr xs => xs.getD i .undefined
  | _ => .undefined

/-- Set equality of two field lists: each is contained in the other (the
payloads at issue never repeat a field). -/
def sameFieldSet (a b : List String) : Bool :=
  a.all (fun k => b.contains k) && b.all (fun k => a.contains k)

/-- Whether a value is a number. -/
def isNumJ : JVal → Bool
  | .jnum _ => true
  | _ => false

/-- Whether a value is a number or absent. -/
def numOrUndef : JVal → Bool
  | .jnum _ => true
  | .undefined => true
  | _ => false

/-- A well-formed wave_height_max field: an array of numbers, or any
falsy value (a truthy non-array would abort the live path). -/
def goodForecastField : JVal → Bool
  | .jarr l => l.all isNumJ
  | v => !truthy v

/-- String carried by a value (empty for non-strings). -/
def strOf : JVal → String
  | .jstr s => s
  | _ => ""

/-- Elements of an array payload. -/
def arrElems : JVal → List JVal
  | .jarr xs => xs
  | _ => []

/-- Whether a character list renders a number with exactly n digits after
a decimal point: it ends in n digit characters preceded by a dot that is
not the first character. -/
def endsInDecimalsL (n : Nat) (l : List Char) : Bool :=
  ((l.reverse.take n).length == n) && (l.reverse.take n).all Char.isDigit &&
    (match l.reverse.drop n with
     | '.' :: _ :: _ => true
     | _ => false)

/-- String form of endsInDecimalsL: the fixed-n-decimal-place shape. -/
def endsInDecimals (n : Nat) (s : String) : Bool := endsInDecimalsL n s.data

/-! ### Facts about the digit rendering -/

/-- The digit rendering of a natural number is never empty. -/
theorem natDigits_ne_nil (n : Nat) : natDigits n ≠ [] := by
  unfold natDigits natDigitsAux
  by_cases h : n < 10 <;> simp [h]

/-- Fraction part rendered for two requested decimals: two digit
characters. -/
theorem fracTwo_ok : ∀ n < 100, (padZeros 2 (natDigits n)).length = 2 ∧
    (padZeros 2 (natDigits n)).all Char.isDigit = true := by decide

/-- Fraction part rendered for one requested decimal: one digit
character. -/
theorem fracOne_ok : ∀ n < 10, (padZeros 1 (natDigits n)).length = 1 ∧
    (padZeros 1 (natDigits n)).all Char.isDigit = true := by decide

/-- A character list of the form xs ++ dot ++ frac, with xs nonempty and
frac made of exactly n digits, has the fixed-n-decimal-place shape. -/
theorem endsInDecimalsL_append (n : Nat) (xs frac : List Char)
    (hx : xs ≠ []) (hlen : frac.length = n)
    (hdig : frac.all Char.isDigit = true) :
    endsInDecimalsL n (xs ++ '.' :: frac) = true := by
  have hrev : (xs ++ '.' :: frac).reverse = frac.reverse ++ '.' :: xs.reverse := by
    simp
  have hlenr : frac.reverse.length = n := by simp [hlen]
  obtain ⟨y, ys, hy⟩ := List.exists_cons_of_ne_nil
    (fun h => hx (by simpa using congrArg List.reverse h) : xs.reverse ≠ [])
  unfold endsInDecimalsL
  rw [hrev, List.take_left' hlenr, List.drop_left' hlenr, hy]
  simp [hlenr, List.all_reverse, hdig]

/-- toFixed with two requested decimals always renders two digits after
the dot. -/
theorem toFixed_two_decimals (d : Dec) : endsInDecimals 2 (toFixed 2 d) = true := by
  have core : ∀ mn e : Nat, ∃ xs frac, toFixedCore 2 mn e = xs ++ '.' :: frac ∧
      xs ≠ [] ∧ frac.length = 2 ∧ frac.all Char.isDigit = true := by
    intro mn e
    refine ⟨natDigits ((2 * mn * 10 ^ 2 + 10 ^ e) / (2 * 10 ^ e) / 10 ^ 2),
      padZeros 2 (natDigits ((2 * mn * 10 ^ 2 + 10 ^ e) / (2 * 10 ^ e) % 10 ^ 2)),
      rfl, natDigits_ne_nil _, ?_, ?_⟩
    · exact (fracTwo_ok _ (Nat.mod_lt _ (by norm_num))).1
    · exact (fracTwo_ok _ (Nat.mod_lt _ (by norm_num))).2
  unfold toFixed endsInDecimals toFixedL
  by_cases h : d.m < 0
  · obtain ⟨xs, frac, hc, hx, hlen, hdig⟩ := core (-d.m).toNat d.e
    simp only [h, if_true]
    rw [hc]
    exact endsInDecimalsL_append 2 ('-' :: xs) frac (by simp) hlen hdig
  · obtain ⟨xs, frac, hc, hx, hlen, hdig⟩ := core d.m.toNat d.e
    simp only [h, if_false]
    rw [hc]
    exact endsInDecimalsL_append 2 xs frac hx hlen hdig

/-- toFixed with one requested decimal always renders one digit after
the dot. -/
theorem toFixed_one_decimal (d : Dec) : endsInDecimals 1 (toFixed 1 d) = true := by
  have core : ∀ mn e : Nat, ∃ xs frac, toFixedCore 1 mn e = xs ++ '.' :: frac ∧
      xs ≠ [] ∧ frac.length = 1 ∧ frac.all Char.isDigit = true := by
    intro mn e
    refine ⟨natDigits ((2 * mn * 10 ^ 1 + 10 ^ e) / (2 * 10 ^ e) / 10 ^ 1),
      padZeros 1 (natDigits ((2 * mn * 10 ^ 1 + 10 ^ e) / (2 * 10 ^ e) % 10 ^ 1)),
      rfl, natDigits_ne_nil _, ?_, ?_⟩
    · exact (fracOne_ok _ (Nat.mod_lt _ (by norm_num))).1
    · exact (fracOne_ok _ (Nat.mod_lt _ (by norm_num))).2
  unfold toFixed endsInDecimals toFixedL
  by_cases h : d.m < 0
  · obtain ⟨xs, frac, hc, hx, hlen, hdig⟩ := core (-d.m).toNat d.e
    simp only [h, if_true]
    rw [hc]
    exact endsInDecimalsL_append 1 ('-' :: xs) frac (by simp) hlen hdig
  · obtain ⟨xs, frac, hc, hx, hlen, hdig⟩ := core d.m.toNat d.e
    simp only [h, if_false]
    rw [hc]
    exact endsInDecimalsL_append 1 xs frac hx hlen hdig

/-! ### Structural helper lemmas -/

/-- hasField agrees with membership in fieldNames. -/
theorem hasField_iff_mem (v : JVal) (k : String) :
    hasField v k = true ↔ k ∈ fieldNames v := by
  cases v <;> simp [hasField, fieldNames]

/-- A value with a nonempty field list is an object. -/
theorem isObj_of_fieldNames {v : JVal} {ks : List String}
    (h : fieldNames v = ks) (hne : ks ≠ []) : ∃ fs, v = .jobj fs := by
  cases v <;> simp_all [fieldNames]

/-- Every element of a successful fallible map is an output of the
element function. -/
theorem mapFallible_mem {f : JVal → Except Unit JVal} {v : JVal}
    {l : List JVal} (h : mapFallible f v = .ok l) :
    ∀ r ∈ l, ∃ x, f x = .ok r := by
  cases v <;> try simp_all [mapFallible]
  case jarr xs =>
    induction xs generalizing l with
    | nil => simp_all [mapFallible.goList]
    | cons x rest ih =>
      simp only [mapFallible.goList] at h
      cases hx : f x with
      | error e => simp [hx] at h
      | ok y =>
        simp only [hx] at h
        cases hr : mapFallible.goList f rest with
        | error e => simp [hr] at h
        | ok ys =>
          simp only [hr] at h
          cases h
          intro r hm
          rcases List.mem_cons.mp hm with h1 | h2
          · exact ⟨x, by rw [hx, h1]⟩
          · exact ih hr r h2

/-- Entries produced by the forecast mapping always carry exactly the
day and waveHeight fields. -/
theorem forecastOf_entries {whm : JVal} {l : List JVal}
    (h : forecastOf whm = .ok l) :
    (l.map fieldNames).all (fun s => s == ["day", "waveHeight"]) = true := by
  unfold forecastOf at h
  by_cases ht : truthy whm
  · rw [if_pos ht] at h
    cases whm <;> try simp_all
    subst h
    intro a ha
    simp only [List.mem_map] at ha
    obtain ⟨p, hp, hpe⟩ := ha
    subst hpe
    simp [fieldNames]
  · rw [if_neg ht] at h
    simp_all

/-- Common observations about every getOceanWeather result, live or
fallback: the WeatherSnapshot field lists and the exact echo of the
requested coordinates in the location object. -/
theorem getOceanWeather_observations (lat lon : Dec) (up : HttpResult) :
    fieldNames (getOceanWeather lat lon up)
        = ["location", "current", "daily", "forecast", "source", "icon"] ∧
    getF (getF (getOceanWeather lat lon up) "location") "latitude" = .jnum lat ∧
    getF (getF (getOceanWeather lat lon up) "location") "longitude" = .jnum lon ∧
    fieldNames (getF (getOceanWeather lat lon up) "current")
        = ["waveHeight", "waveHeightUnit", "wavePeriod", "wavePeriodUnit",
           "windWaveHeight", "condition"] ∧
    fieldNames (getF (getOceanWeather lat lon up) "daily")
        = ["maxTemp", "minTemp", "tempUnit"] ∧
    (entryFieldNames (getF (getOceanWeather lat lon up) "forecast")).all
        (fun s => s == ["day", "waveHeight"]) = true := by
  cases up with
  | fail => exact ⟨rfl, rfl, rfl, rfl, rfl, rfl⟩
  | ok data =>
    by_cases h : truthy data
    · cases hf : forecastOf (getF (jsOr (getF data "daily") (.jobj [])) "wave_height_max") with
      | error e =>
        simp only [getOceanWeather, h, Bool.not_true, Bool.false_eq_true, if_false,
          getOceanWeatherLive, hf]
        exact ⟨rfl, rfl, rfl, rfl, rfl, rfl⟩
      | ok l =>
        simp only [getOceanWeather, h, Bool.not_true, Bool.false_eq_true, if_false,
          getOceanWeatherLive, hf]
        refine ⟨rfl, rfl, rfl, rfl, rfl, ?_⟩
        have := forecastOf_entries hf
        simpa [entryFieldNames, getF, List.lookup] using this
    · simp only [getOceanWeather, h, Bool.not_false, if_true]
      exact ⟨rfl, rfl, rfl, rfl, rfl, rfl⟩

/-- Common observations about every getWaterTemperature result, live or
fallback: the field lists and the exact echo of the requested
coordinates. -/
theorem getWaterTemperature_observations (lat lon : Dec) (up : HttpResult) :
    fieldNames (getWaterTemperature lat lon up)
        = ["location", "current", "daily", "source", "icon"] ∧
    getF (getF (getWaterTemperature lat lon up) "location") "latitude" = .jnum lat ∧
    getF (getF (getWaterTemperature lat lon up) "location") "longitude" = .jnum lon ∧
    fieldNames (getF (getWaterTemperature lat lon up) "current")
        = ["temperature", "unit", "humidity", "condition"] ∧
    fieldNames (getF (getWaterTemperature lat lon up) "daily")
        = ["maxTemp", "minTemp", "precipitation"] := by
  cases up with
  | fail => exact ⟨rfl, rfl, rfl, rfl, rfl⟩
  | ok data =>
    by_cases h : truthy data
    · simp only [getWaterTemperature, h, Bool.not_true, Bool.false_eq_true, if_false]
      exact ⟨rfl, rfl, rfl, rfl, rfl⟩
    · simp only [getWaterTemperature, h, Bool.not_false, if_true]
      exact ⟨rfl, rfl, rfl, rfl, rfl⟩

/-- Every record produced by the getFishSpecies element mapping carries
exactly the canonical FishRecord fields, in the live order. -/
theorem fishFromUpstream_fieldNames {v r : JVal} (h : fishFromUpstream v = .ok r) :
    fieldNames r = ["id", "name", "genus", "family", "freshwater", "marine",
      "brackish", "icon"] := by
  cases v <;> simp_all [fishFromUpstream] <;> simp [← h, fieldNames]

/-- Every entry of every getFishSpecies result (live, fallback or error)
carries the FishRecord field set. -/
theorem getFishSpecies_entries (up : HttpResult) :
    (entryFieldNames (getFishSpecies up)).all
      (fun s => sameFieldSet s ["id", "name", "genus", "family", "freshwater",
        "marine", "brackish", "icon"]) = true := by
  cases up with
  | fail => decide
  | ok data =>
    simp only [getFishSpecies]
    split
    · decide
    · cases hm : mapFallible fishFromUpstream data with
      | error e => simp only [hm]; decide
      | ok fishes =>
        simp only [hm]
        rw [List.all_eq_true]
        intro s hs
        simp only [entryFieldNames, List.mem_map] at hs
        obtain ⟨r, hr, hre⟩ := hs
        obtain ⟨x, hx⟩ := mapFallible_mem hm r hr
        rw [← hre, fishFromUpstream_fieldNames hx]
        decide

/-- Every record produced by the getFishByFamily element mapping carries
exactly the four per-family fields. -/
theorem familyFishFromUpstream_fieldNames {fam : String} {v r : JVal}
    (h : familyFishFromUpstream fam v = .ok r) :
    fieldNames r = ["id", "name", "family", "icon"] := by
  cases v <;> simp_all [familyFishFromUpstream] <;> simp [← h, fieldNames]

/-- Every entry of every getFishByFamily result carries the per-family
field set (vacuously so on the empty failure result). -/
theorem getFishByFamily_entries (fam : String) (up : HttpResult) :
    (entryFieldNames (getFishByFamily fam up)).all
      (fun s => sameFieldSet s ["id", "name", "family", "icon"]) = true := by
  cases up with
  | fail => rfl
  | ok data =>
    simp only [getFishByFamily]
    split
    · rfl
    · cases hm : mapFallible (familyFishFromUpstream fam) data with
      | error e => simp only [hm]; rfl
      | ok fishes =>
        simp only [hm]
        rw [List.all_eq_true]
        intro s hs
        simp only [entryFieldNames, List.mem_map] at hs
        obtain ⟨r, hr, hre⟩ := hs
        obtain ⟨x, hx⟩ := mapFallible_mem hm r hr
        rw [← hre, familyFishFromUpstream_fieldNames hx]
        decide

/-- Every record produced by the biodiversity element mapping carries
exactly the canonical ObservationRecord fields. -/
theorem obsFromUpstream_fieldNames {v r : JVal} (h : obsFromUpstream v = .ok r) :
    fieldNames r = ["id", "species", "commonName", "latitude", "longitude",
      "date", "datasetName", "icon"] := by
  cases v <;> simp_all [obsFromUpstream] <;> simp [← h, fieldNames]

/-- Reading the observations field of a live biodiversity payload. -/
theorem getF_obs_field (a b c : JVal) :
    getF (.jobj [("total", a), ("observations", b), ("source", c)])
      "observations" = b := rfl

/-- Every getBiodiversityObservations payload, live or fallback, has the
total, observations and source fields, and every observation entry
carries the ObservationRecord field set. -/
theorem getBiodiversityObservations_shape (up : HttpResult) :
    fieldNames (getBiodiversityObservations up) = ["total", "observations", "source"] ∧
    (entryFieldNames (getF (getBiodiversityObservations up) "observations")).all
      (fun s => sameFieldSet s ["id", "species", "commonName", "latitude",
        "longitude", "date", "datasetName", "icon"]) = true := by
  cases up with
  | fail => exact ⟨rfl, by decide⟩
  | ok data =>
    simp only [getBiodiversityObservations]
    split
    · exact ⟨rfl, by decide⟩
    · cases hm : mapFallible obsFromUpstream (getF data "results") with
      | error e => simp only [hm]; exact ⟨rfl, by decide⟩
      | ok observations =>
        simp only [hm]
        refine ⟨rfl, ?_⟩
        rw [getF_obs_field, List.all_eq_true]
        intro s hs
        simp only [entryFieldNames, List.mem_map] at hs
        obtain ⟨r, hr, hre⟩ := hs
        obtain ⟨x, hx⟩ := mapFallible_mem hm r hr
        rw [← hre, obsFromUpstream_fieldNames hx]
        decide

/-- Every getSpeciesStats payload, live or fallback, carries exactly the
three statistics fields and the icon. -/
theorem getSpeciesStats_fieldNames (up : HttpResult) :
    fieldNames (getSpeciesStats up)
      = ["totalSpecies", "totalObservations", "totalDatasets", "icon"] := by
  cases up with
  | fail => rfl
  | ok data =>
    simp only [getSpeciesStats]
    split <;> rfl

/-- Every record produced by the area-query element mapping carries
exactly the three minimal fields. -/
theorem areaObsFromUpstream_fieldNames {v r : JVal}
    (h : areaObsFromUpstream v = .ok r) :
    fieldNames r = ["species", "lat", "lon"] := by
  cases v <;> simp_all [areaObsFromUpstream] <;> simp [← h, fieldNames]

/-- Every entry of every getObservationsByArea result carries the minimal
field set (vacuously so on the empty failure result). -/
theorem getObservationsByArea_entries (up : HttpResult) :
    (entryFieldNames (getObservationsByArea up)).all
      (fun s => sameFieldSet s ["species", "lat", "lon"]) = true := by
  cases up with
  | fail => decide
  | ok data =>
    simp only [getObservationsByArea]
    split
    · decide
    · cases hm : mapFallible areaObsFromUpstream (getF data "results") with
      | error e => simp only [hm]; decide
      | ok xs =>
        simp only [hm]
        rw [List.all_eq_true]
        intro s hs
        simp only [entryFieldNames, List.mem_map] at hs
        obtain ⟨r, hr, hre⟩ := hs
        obtain ⟨x, hx⟩ := mapFallible_mem hm r hr
        rw [← hre, areaObsFromUpstream_fieldNames hx]
        decide

/-- The multi-location spread prepends exactly one name field. -/
theorem withName_fieldNames (n : String) (v : JVal) :
    fieldNames (withName n v) = "name" :: fieldNames v := by
  cases v <;> simp [withName, fieldNames]

/-- Reading any field other than name through the multi-location spread
reads it from the underlying weather object. -/
theorem withName_getF (n : String) (v : JVal) (k : String) (hk : k ≠ "name") :
    getF (withName n v) k = getF v k := by
  cases v <;> simp [withName, getF, List.lookup, beq_eq_false_iff_ne.mpr hk]

/-- A numeric-or-absent hourly value coalesced with the numeric default 0
is always a number. -/
theorem jsOr_num_default {v : JVal} (h : numOrUndef v = true) :
    ∃ dd, jsOr v (.jnum ⟨0, 0⟩) = .jnum dd := by
  cases v <;> simp_all [numOrUndef, jsOr, truthy]
  case jnum d =>
    by_cases hz : d.isZero <;> simp [hz]

/-- A numeric-or-absent daily temperature coalesced with the marker
string is the marker or a number. -/
theorem jsOr_temp_default {v : JVal} (h : numOrUndef v = true) :
    jsOr v (.jstr "N/A") = .jstr "N/A" ∨
      ∃ dd, jsOr v (.jstr "N/A") = .jnum dd := by
  cases v <;> simp_all [numOrUndef, jsOr, truthy]
  case jnum d =>
    by_cases hz : d.isZero <;> simp [hz]

/-- A well-formed wave_height_max field makes the forecast mapping
succeed, and every produced waveHeight is a two-decimal text. -/
theorem forecastOf_good {whm : JVal} (hg : goodForecastField whm = true) :
    ∃ l, forecastOf whm = .ok l ∧
      l.all (fun e => endsInDecimals 2 (strOf (getF e "waveHeight"))) = true := by
  cases whm with
  | jarr xs =>
    refine ⟨_, rfl, ?_⟩
    rw [List.all_eq_true]
    intro e he
    simp only [forecastOf, truthy, if_true, List.mem_map] at he
    obtain ⟨p, hp, hpe⟩ := he
    have hsnd : p.2 ∈ xs.take 7 := by
      have := List.mem_map_of_mem Prod.snd hp
      rwa [List.enum_map_snd] at this
    have hnum : isNumJ p.2 = true := by
      simp only [goodForecastField] at hg
      exact List.all_eq_true.mp hg p.2 (List.take_subset _ _ hsnd)
    obtain ⟨dd, hdd⟩ : ∃ dd, p.2 = .jnum dd := by
      cases hv : p.2 <;> simp_all [isNumJ]
    rw [← hpe, hdd]
    simp [getF, List.lookup, strOf, toFixedJ, parseFloatJ]
    exact toFixed_two_decimals dd
  | undefined => exact ⟨[], rfl, rfl⟩
  | jnull => exact ⟨[], rfl, rfl⟩
  | jbool b =>
    simp only [goodForecastField, truthy] at hg
    refine ⟨[], ?_, rfl⟩
    simp only [forecastOf, truthy]
    rw [if_neg (by simp_all)]
  | jnum d =>
    simp only [goodForecastField, truthy] at hg
    refine ⟨[], ?_, rfl⟩
    simp only [forecastOf, truthy]
    rw [if_neg (by simp_all)]
  | jstr s =>
    simp only [goodForecastField, truthy] at hg
    refine ⟨[], ?_, rfl⟩
    simp only [forecastOf, truthy]
    rw [if_neg (by simp_all)]
  | jobj fs => simp [goodForecastField, truthy] at hg

/-- The area-query mapping copies the upstream latitude value without
formatting. -/
theorem areaObs_lat_passthrough (o r : JVal) (d : Dec)
    (hor : areaObsFromUpstream o = .ok r)
    (hlat : getF o "decimalLatitude" = .jnum d) : getF r "lat" = .jnum d := by
  cases o <;> simp_all [areaObsFromUpstream, getF, List.lookup]
  subst hor
  simp [List.lookup]

/-- The area-query mapping copies the upstream longitude value without
formatting. -/
theorem areaObs_lon_passthrough (o r : JVal) (d : Dec)
    (hor : areaObsFromUpstream o = .ok r)
    (hlon : getF o "decimalLongitude" = .jnum d) : getF r "lon" = .jnum d := by
  cases o <;> simp_all [areaObsFromUpstream, getF, List.lookup]
  subst hor
  simp [List.lookup]

/-- The ocean-weather route hands the adapter exactly the coerced
coordinates, and the snapshot echoes them. -/
theorem oceanWeatherRoute_coords (latQ lonQ : Option String) (up : HttpResult)
    (now : String) :
    getF (getF (getF (oceanWeatherRoute latQ lonQ up now).2 "data") "location")
      "latitude" = .jnum (jsOrNum (latQ.bind parseFloatStr) ⟨375, 1⟩) ∧
    getF (getF (getF (oceanWeatherRoute latQ lonQ up now).2 "data") "location")
      "longitude" = .jnum (jsOrNum (lonQ.bind parseFloatStr) ⟨-1224, 1⟩) := by
  have h := getOceanWeather_observations (jsOrNum (latQ.bind parseFloatStr)
    ⟨375, 1⟩) (jsOrNum (lonQ.bind parseFloatStr) ⟨-1224, 1⟩) up
  exact ⟨h.2.1, h.2.2.1⟩

/-- A string containing a degree sign is not the name North Pacific. -/
theorem degree_string_ne_NP (s : String) (h : '°' ∈ s.data) :
    s ≠ "North Pacific" := by
  intro he
  subst he
  exact absurd h (by decide)

/-! ### Claims -/

/-- C2 (counterexample): the first entry of the multi-location fallback
payload does not have the same field set as the first entry of the live
multi-location result (computed here with upstream bodies present): the
live entry carries daily, forecast and source, the fallback entry does
not. -/
theorem C2_counterexample :
    sameFieldSet
      (fieldNames (arrGet (getOceanDataMultipleLocations (.ok (.jobj []))
        (.ok (.jobj [])) (.ok (.jobj []))) 0))
      (fieldNames (arrGet getDefaultMultiLocationData 0)) = false ∧
    fieldNames (arrGet (getOceanDataMultipleLocations (.ok (.jobj []))
      (.ok (.jobj [])) (.ok (.jobj []))) 0)
      = ["name", "location", "current", "daily", "forecast", "source", "icon"] ∧
    fieldNames (arrGet getDefaultMultiLocationData 0)
      = ["name", "location", "current", "icon"] := by
  refine ⟨by decide, by decide, by decide⟩

/-- C2 (amended): for every adapter operation except
getOceanDataMultipleLocations the field set of the payload and of each
entry is the same whether the result came from the live path or the
fallback; the live multi-location entries carry name, location, current,
daily, forecast, source and icon, while the entries of the static
multi-location fallback carry only name, location, current and icon. -/
theorem C2_amended :
    (∀ up, (entryFieldNames (getFishSpecies up)).all
      (fun s => sameFieldSet s ["id", "name", "genus", "family", "freshwater",
        "marine", "brackish", "icon"]) = true) ∧
    (∀ fam up, (entryFieldNames (getFishByFamily fam up)).all
      (fun s => sameFieldSet s ["id", "name", "family", "icon"]) = true) ∧
    (∀ up, fieldNames (getBiodiversityObservations up)
      = ["total", "observations", "source"]) ∧
    (∀ up, (entryFieldNames (getF (getBiodiversityObservations up)
        "observations")).all
      (fun s => sameFieldSet s ["id", "species", "commonName", "latitude",
        "longitude", "date", "datasetName", "icon"]) = true) ∧
    (∀ up, fieldNames (getSpeciesStats up)
      = ["totalSpecies", "totalObservations", "totalDatasets", "icon"]) ∧
    (∀ up, (entryFieldNames (getObservationsByArea up)).all
      (fun s => sameFieldSet s ["species", "lat", "lon"]) = true) ∧
    (∀ (lat lon : Dec) up, fieldNames (getOceanWeather lat lon up)
        = ["location", "current", "daily", "forecast", "source", "icon"] ∧
      fieldNames (getF (getOceanWeather lat lon up) "current")
        = ["waveHeight", "waveHeightUnit", "wavePeriod", "wavePeriodUnit",
           "windWaveHeight", "condition"] ∧
      fieldNames (getF (getOceanWeather lat lon up) "daily")
        = ["maxTemp", "minTemp", "tempUnit"]) ∧
    (∀ (lat lon : Dec) up, fieldNames (getWaterTemperature lat lon up)
        = ["location", "current", "daily", "source", "icon"] ∧
      fieldNames (getF (getWaterTemperature lat lon up) "current")
        = ["temperature", "unit", "humidity", "condition"] ∧
      fieldNames (getF (getWaterTemperature lat lon up) "daily")
        = ["maxTemp", "minTemp", "precipitation"]) ∧
    (∀ u1 u2 u3, (entryFieldNames (getOceanDataMultipleLocations u1 u2 u3)).all
      (fun s => s == ["name", "location", "current", "daily", "forecast",
        "source", "icon"]) = true) ∧
    entryFieldNames getDefaultMultiLocationData
      = [["name", "location", "current", "icon"],
         ["name", "location", "current", "icon"],
         ["name", "location", "current", "icon"]] ∧
    sameFieldSet
      ["name", "location", "current", "daily", "forecast", "source", "icon"]
      ["name", "location", "current", "icon"] = false := by
  refine ⟨getFishSpecies_entries, getFishByFamily_entries,
    fun up => (getBiodiversityObservations_shape up).1,
    fun up => (getBiodiversityObservations_shape up).2,
    getSpeciesStats_fieldNames, getObservationsByArea_entries,
    ?_, ?_, ?_, by decide, by decide⟩
  · intro lat lon up
    obtain ⟨h1, _, _, h4, h5, _⟩ := getOceanWeather_observations lat lon up
    exact ⟨h1, h4, h5⟩
  · intro lat lon up
    obtain ⟨h1, _, _, h4, h5⟩ := getWaterTemperature_observations lat lon up
    exact ⟨h1, h4, h5⟩
  · intro u1 u2 u3
    have h1 := (getOceanWeather_observations ⟨375, 1⟩ ⟨-1224, 1⟩ u1).1
    have h2 := (getOceanWeather_observations ⟨-162, 1⟩ ⟨1458, 1⟩ u2).1
    have h3 := (getOceanWeather_observations ⟨420, 1⟩ ⟨-300, 1⟩ u3).1
    simp [getOceanDataMultipleLocations, entryFieldNames, withName_fieldNames,
      h1, h2, h3]

/-- C6: a live-path upstream record with no Genus field is mapped to the
genus value Unknown, and one with no Marine field is mapped to marine 1,
as the falsy-coalescing defaults prescribe. -/
theorem C6_missing_field_defaults (fs : List (String × JVal))
    (hg : List.lookup "Genus" fs = none)
    (hm : List.lookup "Marine" fs = none) :
    getF (arrGet (getFishSpecies (.ok (.jarr [.jobj fs]))) 0) "genus"
      = .jstr "Unknown" ∧
    getF (arrGet (getFishSpecies (.ok (.jarr [.jobj fs]))) 0) "marine"
      = .jnum ⟨1, 0⟩ := by
  simp [getFishSpecies, truthy, lenEqZero, mapFallible, mapFallible.goList,
    fishFromUpstream, arrGet, getF, List.lookup, hg, hm, jsOr]

/-- C6 (witness): a concrete record carrying only a Species field maps to
genus Unknown and marine 1. -/
theorem C6_witness :
    getF (arrGet (getFishSpecies (.ok (.jarr
      [.jobj [("Species", .jstr "Tuna")]]))) 0) "genus" = .jstr "Unknown" ∧
    getF (arrGet (getFishSpecies (.ok (.jarr
      [.jobj [("Species", .jstr "Tuna")]]))) 0) "marine" = .jnum ⟨1, 0⟩ :=
  C6_missing_field_defaults [("Species", .jstr "Tuna")] rfl rfl

/-- C9: a live-path upstream record whose Marine field is explicitly 0 is
mapped to marine 1 — the falsy-coalescing default overrides the explicit
false flag — while explicit Freshwater and Brackish values of 0 are kept
as 0. -/
theorem C9_marine_zero_coerced (fs : List (String × JVal))
    (hm : List.lookup "Marine" fs = some (.jnum ⟨0, 0⟩))
    (hf : List.lookup "Freshwater" fs = some (.jnum ⟨0, 0⟩))
    (hb : List.lookup "Brackish" fs = some (.jnum ⟨0, 0⟩)) :
    getF (arrGet (getFishSpecies (.ok (.jarr [.jobj fs]))) 0) "marine"
      = .jnum ⟨1, 0⟩ ∧
    getF (arrGet (getFishSpecies (.ok (.jarr [.jobj fs]))) 0) "freshwater"
      = .jnum ⟨0, 0⟩ ∧
    getF (arrGet (getFishSpecies (.ok (.jarr [.jobj fs]))) 0) "brackish"
      = .jnum ⟨0, 0⟩ := by
  simp [getFishSpecies, truthy, lenEqZero, mapFallible, mapFallible.goList,
    fishFromUpstream, arrGet, getF, List.lookup, hm, hf, hb, jsOr, Dec.isZero]

/-- C9 (witness): a concrete record with Marine, Freshwater and Brackish
all explicitly 0 maps to marine 1, freshwater 0 and brackish 0. -/
theorem C9_witness :
    getF (arrGet (getFishSpecies (.ok (.jarr [.jobj
      [("Marine", .jnum ⟨0, 0⟩), ("Freshwater", .jnum ⟨0, 0⟩),
       ("Brackish", .jnum ⟨0, 0⟩)]]))) 0) "marine" = .jnum ⟨1, 0⟩ ∧
    getF (arrGet (getFishSpecies (.ok (.jarr [.jobj
      [("Marine", .jnum ⟨0, 0⟩), ("Freshwater", .jnum ⟨0, 0⟩),
       ("Brackish", .jnum ⟨0, 0⟩)]]))) 0) "freshwater" = .jnum ⟨0, 0⟩ ∧
    getF (arrGet (getFishSpecies (.ok (.jarr [.jobj
      [("Marine", .jnum ⟨0, 0⟩), ("Freshwater", .jnum ⟨0, 0⟩),
       ("Brackish", .jnum ⟨0, 0⟩)]]))) 0) "brackish" = .jnum ⟨0, 0⟩ :=
  C9_marine_zero_coerced
    [("Marine", .jnum ⟨0, 0⟩), ("Freshwater", .jnum ⟨0, 0⟩),
     ("Brackish", .jnum ⟨0, 0⟩)] rfl rfl rfl

/-- C1 (counterexample): getFishByFamily with a failed outbound call
returns the empty array — an empty result, contradicting the claim that
every adapter operation returns a non-empty fallback. -/
theorem C1_counterexample :
    getFishByFamily "Salmonidae" .fail = .jarr [] ∧
    arrLen (getFishByFamily "Salmonidae" .fail) = 0 := ⟨rfl, rfl⟩

/-- C1 (amended): when the outbound call fails, the six operations
getFishSpecies, getBiodiversityObservations, getSpeciesStats,
getOceanWeather, getWaterTemperature and getOceanDataMultipleLocations
return their non-empty static fallback payloads without raising, while
getFishByFamily and getObservationsByArea also absorb the failure but
return the empty array rather than a non-empty fallback. -/
theorem C1_amended :
    (getFishSpecies .fail = getDefaultFishData ∧ arrLen getDefaultFishData = 5) ∧
    (getBiodiversityObservations .fail = getDefaultBiodiversityData ∧
      arrLen (getF getDefaultBiodiversityData "observations") = 5) ∧
    (getSpeciesStats .fail = getDefaultSpeciesStats ∧
      fieldNames getDefaultSpeciesStats
        = ["totalSpecies", "totalObservations", "totalDatasets", "icon"]) ∧
    (∀ lat lon : Dec, getOceanWeather lat lon .fail = getDefaultOceanWeather lat lon ∧
      fieldNames (getDefaultOceanWeather lat lon)
        = ["location", "current", "daily", "forecast", "source", "icon"]) ∧
    (∀ lat lon : Dec,
      getWaterTemperature lat lon .fail = getDefaultTemperatureData lat lon ∧
      fieldNames (getDefaultTemperatureData lat lon)
        = ["location", "current", "daily", "source", "icon"]) ∧
    arrLen (getOceanDataMultipleLocations .fail .fail .fail) = 3 ∧
    (∀ fam : String, getFishByFamily fam .fail = .jarr []) ∧
    getObservationsByArea .fail = .jarr [] :=
  ⟨⟨rfl, rfl⟩, ⟨rfl, rfl⟩, ⟨rfl, rfl⟩,
   fun _ _ => ⟨rfl, rfl⟩, fun _ _ => ⟨rfl, rfl⟩, rfl, fun _ => rfl, rfl⟩

/-- C5: when every upstream call fails, the dashboard route still answers
status 200 with success true, and the four sections are the adapters'
fallback payloads, none empty or absent: five fish records, five
observations, three weather entries and the populated statistics. -/
theorem C5_dashboard_all_down :
    (dashboardRoute .fail .fail .fail .fail .fail .fail "t").1 = 200 ∧
    getF (dashboardRoute .fail .fail .fail .fail .fail .fail "t").2 "success"
      = .jbool true ∧
    getF (getF (dashboardRoute .fail .fail .fail .fail .fail .fail "t").2 "data")
      "fishSpecies" = getDefaultFishData ∧
    arrLen (getF (getF (dashboardRoute .fail .fail .fail .fail .fail .fail "t").2
      "data") "fishSpecies") = 5 ∧
    getF (getF (dashboardRoute .fail .fail .fail .fail .fail .fail "t").2 "data")
      "biodiversity" = getDefaultBiodiversityData ∧
    arrLen (getF (getF (getF (dashboardRoute .fail .fail .fail .fail .fail .fail
      "t").2 "data") "biodiversity") "observations") = 5 ∧
    arrLen (getF (getF (dashboardRoute .fail .fail .fail .fail .fail .fail "t").2
      "data") "oceanWeather") = 3 ∧
    arrGet (getF (getF (dashboardRoute .fail .fail .fail .fail .fail .fail "t").2
      "data") "oceanWeather") 0
      = withName "San Francisco Bay" (getDefaultOceanWeather ⟨375, 1⟩ ⟨-1224, 1⟩) ∧
    getF (getF (dashboardRoute .fail .fail .fail .fail .fail .fail "t").2 "data")
      "stats" = getDefaultSpeciesStats ∧
    fieldNames (getF (getF (dashboardRoute .fail .fail .fail .fail .fail .fail
      "t").2 "data") "stats")
      = ["totalSpecies", "totalObservations", "totalDatasets", "icon"] :=
  ⟨rfl, rfl, rfl, rfl, rfl, rfl, rfl, rfl, rfl, rfl⟩

/-- C7: every getOceanWeather snapshot, live or fallback, echoes the
requested coordinates exactly in its location field; in particular the
snapshot for 40.7, -74.0 satisfies both equalities. -/
theorem C7_location_echo (lat lon : Dec) (up : HttpResult) :
    getF (getF (getOceanWeather lat lon up) "location") "latitude" = .jnum lat ∧
    getF (getF (getOceanWeather lat lon up) "location") "longitude" = .jnum lon ∧
    getF (getF (getOceanWeather ⟨407, 1⟩ ⟨-740, 1⟩ up) "location") "latitude"
      = .jnum ⟨407, 1⟩ ∧
    getF (getF (getOceanWeather ⟨407, 1⟩ ⟨-740, 1⟩ up) "location") "longitude"
      = .jnum ⟨-740, 1⟩ :=
  ⟨(getOceanWeather_observations lat lon up).2.1,
   (getOceanWeather_observations lat lon up).2.2.1,
   (getOceanWeather_observations ⟨407, 1⟩ ⟨-740, 1⟩ up).2.1,
   (getOceanWeather_observations ⟨407, 1⟩ ⟨-740, 1⟩ up).2.2.1⟩

/-- C8: getOceanDataMultipleLocations always returns exactly three
entries, each carrying a name field and a current.waveHeight field, on
the live path for any upstream outcomes and likewise in the unreachable
static multi-location fallback. -/
theorem C8_multi_locations (u1 u2 u3 : HttpResult) :
    arrLen (getOceanDataMultipleLocations u1 u2 u3) = 3 ∧
    (arrElems (getOceanDataMultipleLocations u1 u2 u3)).all
      (fun e => hasField e "name" && hasField (getF e "current") "waveHeight")
      = true ∧
    arrLen getDefaultMultiLocationData = 3 ∧
    (arrElems getDefaultMultiLocationData).all
      (fun e => hasField e "name" && hasField (getF e "current") "waveHeight")
      = true := by
  have key : ∀ (la lo : Dec) (u : HttpResult) (n : String),
      (hasField (withName n (getOceanWeather la lo u)) "name" &&
        hasField (getF (withName n (getOceanWeather la lo u)) "current")
          "waveHeight") = true := by
    intro la lo u n
    obtain ⟨hw, _, _, hc, _, _⟩ := getOceanWeather_observations la lo u
    rw [Bool.and_eq_true]
    constructor
    · rw [hasField_iff_mem, withName_fieldNames]
      simp
    · rw [withName_getF _ _ _ (by decide), hasField_iff_mem, hc]
      simp
  refine ⟨rfl, ?_, rfl, by decide⟩
  simp only [getOceanDataMultipleLocations, arrElems, List.all_cons,
    List.all_nil, key, Bool.and_true]

/-- C10: getLocationName can never answer North Pacific: that region's
longitude bounds (at least 120 and at most -100) are unsatisfiable, so
the coordinates fall through to another region name or to the formatted
coordinate string. -/
theorem C10_north_pacific_unreachable (lat lon : Dec) :
    getLocationName lat lon ≠ "North Pacific" ∧
    (Dec.le ⟨120, 0⟩ lon && Dec.le lon ⟨-100, 0⟩) = false := by
  have hcond : (Dec.le ⟨120, 0⟩ lon && Dec.le lon ⟨-100, 0⟩) = false := by
    by_contra hc
    rw [Bool.not_eq_false, Bool.and_eq_true] at hc
    obtain ⟨h3, h4⟩ := hc
    simp only [Dec.le, decide_eq_true_eq] at h3 h4
    have hp : (0:Int) < 10 ^ lon.e := pow_pos (by norm_num) _
    simp at h3 h4
    linarith
  refine ⟨?_, hcond⟩
  unfold getLocationName
  simp only [oceanRegions, findRegion, hcond, Bool.and_false, Bool.false_eq_true,
    if_false]
  split_ifs <;> simp_all
  · apply degree_string_ne_NP
    simp [String.data_append]

/-- C3 (counterexample): on the live path, a present numeric daily
maximum temperature of 15.27 is rendered as the string 15.3 — one
decimal place, not the claimed fixed two decimal places. -/
theorem C3_counterexample :
    getF (getF (getOceanWeather ⟨375, 1⟩ ⟨-1224, 1⟩ (.ok (.jobj [("daily",
      .jobj [("temperature_2m_max", .jarr [.jnum ⟨1527, 2⟩])])]))) "daily")
      "maxTemp" = .jstr "15.3" ∧
    endsInDecimals 2 "15.3" = false := by
  constructor
  · show JVal.jstr (toFixed 1 ⟨1527, 2⟩) = .jstr "15.3"
    rw [show toFixed 1 (⟨1527, 2⟩ : Dec) = "15.3" from by decide]
  · decide

/-- C3 (amended): on getOceanWeather's live path with well-formed
upstream numeric fields, every wave value (current and forecast) is a
fixed-two-decimal-place text; a present NONZERO numeric temperature
value is rendered as a fixed-one-decimal-place text string, while an
absent temperature — and likewise a present temperature of exactly 0,
which the falsy-coalescing default treats as absent — becomes the
literal string N/A rather than null; the area-query variant passes the
upstream coordinates through as raw numbers. -/
theorem C3_amended (lat lon : Dec) (data : JVal)
    (hd : truthy data = true)
    (hwh : numOrUndef (idx0 (getF (jsOr (getF data "hourly") (.jobj []))
      "wave_height")) = true)
    (hwp : numOrUndef (idx0 (getF (jsOr (getF data "hourly") (.jobj []))
      "wave_period")) = true)
    (hww : numOrUndef (idx0 (getF (jsOr (getF data "hourly") (.jobj []))
      "wind_wave_height")) = true)
    (hfc : goodForecastField (getF (jsOr (getF data "daily") (.jobj []))
      "wave_height_max") = true) :
    endsInDecimals 2 (strOf (getF (getF (getOceanWeather lat lon (.ok data))
      "current") "waveHeight")) = true ∧
    endsInDecimals 2 (strOf (getF (getF (getOceanWeather lat lon (.ok data))
      "current") "wavePeriod")) = true ∧
    endsInDecimals 2 (strOf (getF (getF (getOceanWeather lat lon (.ok data))
      "current") "windWaveHeight")) = true ∧
    (arrElems (getF (getOceanWeather lat lon (.ok data)) "forecast")).all
      (fun e => endsInDecimals 2 (strOf (getF e "waveHeight"))) = true ∧
    (∀ d : Dec, idx0 (getF (jsOr (getF data "daily") (.jobj []))
        "temperature_2m_max") = .jnum d → d.isZero = false →
      getF (getF (getOceanWeather lat lon (.ok data)) "daily") "maxTemp"
          = .jstr (toFixed 1 d) ∧
        endsInDecimals 1 (strOf (getF (getF (getOceanWeather lat lon
          (.ok data)) "daily") "maxTemp")) = true) ∧
    (∀ d : Dec, idx0 (getF (jsOr (getF data "daily") (.jobj []))
        "temperature_2m_max") = .jnum d → d.isZero = true →
      getF (getF (getOceanWeather lat lon (.ok data)) "daily") "maxTemp"
        = .jstr "N/A") ∧
    (idx0 (getF (jsOr (getF data "daily") (.jobj [])) "temperature_2m_max")
        = .undefined →
      getF (getF (getOceanWeather lat lon (.ok data)) "daily") "maxTemp"
        = .jstr "N/A") ∧
    (∀ d : Dec, idx0 (getF (jsOr (getF data "daily") (.jobj []))
        "temperature_2m_min") = .jnum d → d.isZero = false →
      getF (getF (getOceanWeather lat lon (.ok data)) "daily") "minTemp"
          = .jstr (toFixed 1 d) ∧
        endsInDecimals 1 (strOf (getF (getF (getOceanWeather lat lon
          (.ok data)) "daily") "minTemp")) = true) ∧
    (∀ d : Dec, idx0 (getF (jsOr (getF data "daily") (.jobj []))
        "temperature_2m_min") = .jnum d → d.isZero = true →
      getF (getF (getOceanWeather lat lon (.ok data)) "daily") "minTemp"
        = .jstr "N/A") ∧
    (idx0 (getF (jsOr (getF data "daily") (.jobj [])) "temperature_2m_min")
        = .undefined →
      getF (getF (getOceanWeather lat lon (.ok data)) "daily") "minTemp"
        = .jstr "N/A") ∧
    (∀ (o r : JVal) (d : Dec), areaObsFromUpstream o = .ok r →
      getF o "decimalLatitude" = .jnum d → getF r "lat" = .jnum d) ∧
    (∀ (o r : JVal) (d : Dec), areaObsFromUpstream o = .ok r →
      getF o "decimalLongitude" = .jnum d → getF r "lon" = .jnum d) := by
  obtain ⟨l, hf, hl⟩ := forecastOf_good hfc
  have hrw : getOceanWeather lat lon (.ok data) = .jobj [
    ("location", .jobj [("latitude", .jnum lat), ("longitude", .jnum lon),
      ("name", .jstr (getLocationName lat lon))]),
    ("current", .jobj [
      ("waveHeight", .jstr (toFixedJ 2 (parseFloatJ (jsOr (idx0 (getF (jsOr
        (getF data "hourly") (.jobj [])) "wave_height")) (.jnum ⟨0, 0⟩))))),
      ("waveHeightUnit", .jstr "meters"),
      ("wavePeriod", .jstr (toFixedJ 2 (parseFloatJ (jsOr (idx0 (getF (jsOr
        (getF data "hourly") (.jobj [])) "wave_period")) (.jnum ⟨0, 0⟩))))),
      ("wavePeriodUnit", .jstr "seconds"),
      ("windWaveHeight", .jstr (toFixedJ 2 (parseFloatJ (jsOr (idx0 (getF (jsOr
        (getF data "hourly") (.jobj [])) "wind_wave_height")) (.jnum ⟨0, 0⟩))))),
      ("condition", .jstr (getWaveCondition (jsOr (idx0 (getF (jsOr
        (getF data "hourly") (.jobj [])) "wave_height")) (.jnum ⟨0, 0⟩))))]),
    ("daily", .jobj [
      ("maxTemp", match jsOr (idx0 (getF (jsOr (getF data "daily") (.jobj []))
          "temperature_2m_max")) (.jstr "N/A") with
        | .jnum d => .jstr (toFixed 1 d)
        | v => v),
      ("minTemp", match jsOr (idx0 (getF (jsOr (getF data "daily") (.jobj []))
          "temperature_2m_min")) (.jstr "N/A") with
        | .jnum d => .jstr (toFixed 1 d)
        | v => v),
      ("tempUnit", .jstr "°C")]),
    ("forecast", .jarr l),
    ("source", .jstr "Open-Meteo Marine API"),
    ("icon", .jstr "🌊")] := by
    simp only [getOceanWeather, hd, Bool.not_true, Bool.false_eq_true, if_false,
      getOceanWeatherLive, hf]
  rw [hrw]
  obtain ⟨d1, hd1⟩ := jsOr_num_default hwh
  obtain ⟨d2, hd2⟩ := jsOr_num_default hwp
  obtain ⟨d3, hd3⟩ := jsOr_num_default hww
  refine ⟨?_, ?_, ?_, ?_, ?_, ?_, ?_, ?_, ?_, ?_, ?_, ?_⟩
  · rw [hd1]
    simp [getF, List.lookup, strOf, toFixedJ, parseFloatJ,
      toFixed_two_decimals]
  · rw [hd2]
    simp [getF, List.lookup, strOf, toFixedJ, parseFloatJ,
      toFixed_two_decimals]
  · rw [hd3]
    simp [getF, List.lookup, strOf, toFixedJ, parseFloatJ,
      toFixed_two_decimals]
  · exact hl
  · intro d hidx hz
    rw [hidx]
    simp [getF, List.lookup, jsOr, truthy, hz, strOf, toFixed_one_decimal]
  · intro d hidx hz
    rw [hidx]
    simp [getF, List.lookup, jsOr, truthy, hz]
  · intro habs
    rw [habs]
    simp [getF, List.lookup, jsOr, truthy]
  · intro d hidx hz
    rw [hidx]
    simp [getF, List.lookup, jsOr, truthy, hz, strOf, toFixed_one_decimal]
  · intro d hidx hz
    rw [hidx]
    simp [getF, List.lookup, jsOr, truthy, hz]
  · intro habs
    rw [habs]
    simp [getF, List.lookup, jsOr, truthy]
  · exact areaObs_lat_passthrough
  · exact areaObs_lon_passthrough

/-- C3 (witness): on a concrete live response, the wave height 2.35 is
rendered as a two-decimal text; the present nonzero maximum temperature
15.27 is rendered exactly as the one-decimal text of toFixed, and a
second live response whose maximum temperature is exactly 0 renders the
marker N/A. -/
theorem C3_witness :
    endsInDecimals 2 (strOf (getF (getF (getOceanWeather ⟨375, 1⟩ ⟨-1224, 1⟩
      (.ok (.jobj [("hourly", .jobj [("wave_height", .jarr [.jnum ⟨235, 2⟩])]),
        ("daily", .jobj [("temperature_2m_max", .jarr [.jnum ⟨1527, 2⟩]),
          ("wave_height_max", .jarr [.jnum ⟨15, 1⟩, .jnum ⟨2, 0⟩])])])))
      "current") "waveHeight")) = true ∧
    getF (getF (getOceanWeather ⟨375, 1⟩ ⟨-1224, 1⟩
      (.ok (.jobj [("hourly", .jobj [("wave_height", .jarr [.jnum ⟨235, 2⟩])]),
        ("daily", .jobj [("temperature_2m_max", .jarr [.jnum ⟨1527, 2⟩]),
          ("wave_height_max", .jarr [.jnum ⟨15, 1⟩, .jnum ⟨2, 0⟩])])])))
      "daily") "maxTemp" = .jstr (toFixed 1 ⟨1527, 2⟩) ∧
    endsInDecimals 1 (strOf (getF (getF (getOceanWeather ⟨375, 1⟩ ⟨-1224, 1⟩
      (.ok (.jobj [("hourly", .jobj [("wave_height", .jarr [.jnum ⟨235, 2⟩])]),
        ("daily", .jobj [("temperature_2m_max", .jarr [.jnum ⟨1527, 2⟩]),
          ("wave_height_max", .jarr [.jnum ⟨15, 1⟩, .jnum ⟨2, 0⟩])])])))
      "daily") "maxTemp")) = true ∧
    getF (getF (getOceanWeather ⟨375, 1⟩ ⟨-1224, 1⟩ (.ok (.jobj [("daily",
      .jobj [("temperature_2m_max", .jarr [.jnum ⟨0, 0⟩])])]))) "daily")
      "maxTemp" = .jstr "N/A" :=
  by
  have h1 := C3_amended ⟨375, 1⟩ ⟨-1224, 1⟩
    (.jobj [("hourly", .jobj [("wave_height", .jarr [.jnum ⟨235, 2⟩])]),
      ("daily", .jobj [("temperature_2m_max", .jarr [.jnum ⟨1527, 2⟩]),
        ("wave_height_max", .jarr [.jnum ⟨15, 1⟩, .jnum ⟨2, 0⟩])])])
    (by decide) (by decide) (by decide) (by decide) (by decide)
  have h2 := C3_amended ⟨375, 1⟩ ⟨-1224, 1⟩
    (.jobj [("daily", .jobj [("temperature_2m_max", .jarr [.jnum ⟨0, 0⟩])])])
    (by decide) (by decide) (by decide) (by decide) (by decide)
  exact ⟨h1.1, (h1.2.2.2.2.1 ⟨1527, 2⟩ rfl (by decide)).1,
    (h1.2.2.2.2.1 ⟨1527, 2⟩ rfl (by decide)).2,
    h2.2.2.2.2.2.1 ⟨0, 0⟩ rfl (by decide)⟩

/-- C4 (counterexample): a caller-supplied latitude of 0 — a numeric
value — is not passed through to the adapter: the route coerces it to the
default 37.5. -/
theorem C4_counterexample :
    getF (getF (getF (oceanWeatherRoute (some "0") none .fail "t").2 "data")
      "location") "latitude" = .jnum ⟨375, 1⟩ ∧
    getF (getF (getF (oceanWeatherRoute (some "0") none .fail "t").2 "data")
      "location") "latitude" ≠ .jnum ⟨0, 0⟩ := by
  refine ⟨rfl, ?_⟩
  show JVal.jnum ⟨375, 1⟩ ≠ .jnum ⟨0, 0⟩
  intro h
  injection h with h2
  exact absurd h2 (by decide)

/-- C4 (amended): the lat and lon query parameters of the ocean-weather
route are replaced by their defaults 37.5 and -122.4 when absent, when
parseFloat yields NaN, and also when the supplied numeric value is 0
(zero is falsy, so it is coerced to the default as well); any value whose
parseFloat result is a nonzero number x is passed to the adapter as x. -/
theorem C4_amended :
    (∀ lonQ up now, getF (getF (getF (oceanWeatherRoute none lonQ up now).2
      "data") "location") "latitude" = .jnum ⟨375, 1⟩) ∧
    (∀ s lonQ up now, parseFloatStr s = none →
      getF (getF (getF (oceanWeatherRoute (some s) lonQ up now).2 "data")
        "location") "latitude" = .jnum ⟨375, 1⟩) ∧
    (∀ s x lonQ up now, parseFloatStr s = some x → x.isZero = false →
      getF (getF (getF (oceanWeatherRoute (some s) lonQ up now).2 "data")
        "location") "latitude" = .jnum x) ∧
    (∀ lonQ up now, getF (getF (getF (oceanWeatherRoute (some "0") lonQ up
      now).2 "data") "location") "latitude" = .jnum ⟨375, 1⟩) ∧
    (∀ latQ up now, getF (getF (getF (oceanWeatherRoute latQ none up now).2
      "data") "location") "longitude" = .jnum ⟨-1224, 1⟩) ∧
    (∀ s x latQ up now, parseFloatStr s = some x → x.isZero = false →
      getF (getF (getF (oceanWeatherRoute latQ (some s) up now).2 "data")
        "location") "longitude" = .jnum x) := by
  refine ⟨?_, ?_, ?_, ?_, ?_, ?_⟩
  · intro lonQ up now
    have h := (oceanWeatherRoute_coords none lonQ up now).1
    simpa [jsOrNum] using h
  · intro s lonQ up now hs
    have h := (oceanWeatherRoute_coords (some s) lonQ up now).1
    rw [h]
    simp [jsOrNum, Option.bind, hs]
  · intro s x lonQ up now hs hz
    have h := (oceanWeatherRoute_coords (some s) lonQ up now).1
    rw [h]
    simp [jsOrNum, Option.bind, hs, hz]
  · intro lonQ up now
    have h := (oceanWeatherRoute_coords (some "0") lonQ up now).1
    rw [h]
    simp [jsOrNum, Option.bind,
      show parseFloatStr "0" = some ⟨0, 0⟩ from by decide, Dec.isZero]
  · intro latQ up now
    have h := (oceanWeatherRoute_coords latQ none up now).2
    simpa [jsOrNum] using h
  · intro s x latQ up now hs hz
    have h := (oceanWeatherRoute_coords latQ (some s) up now).2
    rw [h]
    simp [jsOrNum, Option.bind, hs, hz]

/-- C4 (witness): a non-numeric latitude falls back to 37.5 and the
numeric latitude 55.5 is passed through unchanged. -/
theorem C4_witness :
    getF (getF (getF (oceanWeatherRoute (some "abc") none .fail "t").2 "data")
      "location") "latitude" = .jnum ⟨375, 1⟩ ∧
    getF (getF (getF (oceanWeatherRoute (some "55.5") none .fail "t").2 "data")
      "location") "latitude" = .jnum ⟨555, 1⟩ :=
  ⟨C4_amended.2.1 "abc" none .fail "t" (by decide),
   C4_amended.2.2.1 "55.5" ⟨555, 1⟩ none .fail "t" (by decide) (by decide)⟩

end Tidepool
